import Mathlib

set_option linter.unusedVariables false

/-
Verification development for the HST (hydrostatic transmission) performance
model of src/hst.py. The Python class HST is embedded shallowly over the
reals: each method-local quantity becomes a definition translated from the
corresponding source expression, with numpy float arithmetic idealised as
real arithmetic (np.radians x = x * pi / 180, x ** (1/3) = rpow, np.ceil and
np.floor on reals = Int.ceil and Int.floor). The source raises none of the
domain errors named by the specification; to make the specification's
failure claims statable, the entry points are wrapped in an Except over an
error type, and the wrappers return ok exactly because the source performs
no validation.
-/

namespace HSU

open Real

/-- Error taxonomy named by the specification (section 7). The source code
of src/hst.py defines and raises none of these; the type exists so that the
claims about raising them can be stated against the embedding. -/
inductive HSTError where
  | invalidConfiguration
  | degenerateGeometry
  | invalidOperatingPoint
  | oilDataNotFound
  deriving DecidableEq

/-- Row of the oil property table, mirroring the columns the source reads
from the per-oil CSV file. The source reads only the dynamic viscosity
column. The bulk field is modelled from the spec: the oil CSV data files are
not under src, and the spec's data model lists a bulk modulus among the
looked-up oil properties. -/
structure OilRow where
  viscDyn : ℝ
  viscKin : ℝ
  density : ℝ
  bulk : ℝ

/-- State of an HST object after init (src/hst.py lines 27 to 45),
restricted to the attributes the physical model reads. The oil table
oil_data (set by read_oil from an external CSV) is modelled as a lookup
function from temperature to an OilRow. -/
structure HSTState where
  displ : ℝ
  swash : ℝ
  pistons : ℕ
  oil_temp : ℝ
  oil_bulk : ℝ
  oil_data : ℝ → OilRow

/-- Embedding of HST.init (src/hst.py lines 27 to 45): stores the
configuration and sets oil_bulk to the literal 15000 (line 41). -/
def hst_init (displ swash : ℝ) (pistons : ℕ) (oil_temp : ℝ)
    (oil_data : ℝ → OilRow) : HSTState :=
  { displ := displ, swash := swash, pistons := pistons, oil_temp := oil_temp,
    oil_bulk := 15000, oil_data := oil_data }

/-- The sizes dictionary produced by HST.compute_sizes (src/hst.py lines
159 to 171), with the same keys. -/
structure Sizes where
  d : ℝ
  Ap : ℝ
  D : ℝ
  h : ℝ
  eng : ℝ
  rbo : ℝ
  Rbo : ℝ
  Rbi : ℝ
  rbi : ℝ
  rs : ℝ
  Rs : ℝ

/-- Piston diameter, src/hst.py lines 139 to 141. -/
noncomputable def dia_piston (V β : ℝ) (n : ℕ) (k1 k2 k3 k4 k5 : ℝ) : ℝ :=
  (4 * V * 1e-6 * k1 / ((n : ℝ) ^ 2 * Real.tan (β * π / 180))) ^ ((1 : ℝ) / 3)

/-- Piston area, src/hst.py line 142. -/
noncomputable def area_piston (V β : ℝ) (n : ℕ) (k1 k2 k3 k4 k5 : ℝ) : ℝ :=
  π * (dia_piston V β n k1 k2 k3 k4 k5) ^ 2 / 4

/-- Pitch circle diameter, src/hst.py line 143. -/
noncomputable def pcd (V β : ℝ) (n : ℕ) (k1 k2 k3 k4 k5 : ℝ) : ℝ :=
  (n : ℝ) * dia_piston V β n k1 k2 k3 k4 k5 / (π * k1)

/-- Stroke, src/hst.py line 144. -/
noncomputable def stroke (V β : ℝ) (n : ℕ) (k1 k2 k3 k4 k5 : ℝ) : ℝ :=
  pcd V β n k1 k2 k3 k4 k5 * Real.tan (β * π / 180)

/-- Minimum piston engagement, src/hst.py line 145. -/
noncomputable def min_engagement (V β : ℝ) (n : ℕ) (k1 k2 k3 k4 k5 : ℝ) : ℝ :=
  1.4 * dia_piston V β n k1 k2 k3 k4 k5

/-- Kidney port area, src/hst.py line 146. -/
noncomputable def kidney_area (V β : ℝ) (n : ℕ) (k1 k2 k3 k4 k5 : ℝ) : ℝ :=
  k3 * area_piston V β n k1 k2 k3 k4 k5

/-- Kidney port width, src/hst.py lines 147 to 149. -/
noncomputable def kidney_width (V β : ℝ) (n : ℕ) (k1 k2 k3 k4 k5 : ℝ) : ℝ :=
  2 * (Real.sqrt ((dia_piston V β n k1 k2 k3 k4 k5) ^ 2 +
    (π - 4) * kidney_area V β n k1 k2 k3 k4 k5) -
    dia_piston V β n k1 k2 k3 k4 k5) / (π - 4)

/-- Block land width, src/hst.py lines 150 to 151. -/
noncomputable def land_width (V β : ℝ) (n : ℕ) (k1 k2 k3 k4 k5 : ℝ) : ℝ :=
  k2 * (n : ℝ) * area_piston V β n k1 k2 k3 k4 k5 /
    (π * pcd V β n k1 k2 k3 k4 k5) - kidney_width V β n k1 k2 k3 k4 k5

/-- Outer band inner radius rbo, src/hst.py line 152. -/
noncomputable def rad_ext_int (V β : ℝ) (n : ℕ) (k1 k2 k3 k4 k5 : ℝ) : ℝ :=
  (pcd V β n k1 k2 k3 k4 k5 + kidney_width V β n k1 k2 k3 k4 k5) / 2

/-- Outer band outer radius Rbo, src/hst.py line 153. -/
noncomputable def rad_ext_ext (V β : ℝ) (n : ℕ) (k1 k2 k3 k4 k5 : ℝ) : ℝ :=
  rad_ext_int V β n k1 k2 k3 k4 k5 + land_width V β n k1 k2 k3 k4 k5

/-- Inner band outer radius Rbi, src/hst.py line 154. -/
noncomputable def rad_int_ext (V β : ℝ) (n : ℕ) (k1 k2 k3 k4 k5 : ℝ) : ℝ :=
  (pcd V β n k1 k2 k3 k4 k5 - kidney_width V β n k1 k2 k3 k4 k5) / 2

/-- Inner band inner radius rbi, src/hst.py line 155. -/
noncomputable def rad_int_int (V β : ℝ) (n : ℕ) (k1 k2 k3 k4 k5 : ℝ) : ℝ :=
  rad_int_ext V β n k1 k2 k3 k4 k5 - land_width V β n k1 k2 k3 k4 k5

/-- Shoe area, src/hst.py line 156. -/
noncomputable def area_shoe (V β : ℝ) (n : ℕ) (k1 k2 k3 k4 k5 : ℝ) : ℝ :=
  k4 * area_piston V β n k1 k2 k3 k4 k5 / Real.cos (β * π / 180)

/-- Shoe outer radius Rs, src/hst.py line 157. -/
noncomputable def rad_ext_shoe (V β : ℝ) (n : ℕ) (k1 k2 k3 k4 k5 : ℝ) : ℝ :=
  π * pcd V β n k1 k2 k3 k4 k5 * k5 / (2 * (n : ℝ))

/-- Shoe inner radius rs, src/hst.py line 158. Caveat: Real.sqrt is 0 on
negative arguments whereas the source's np.sqrt returns NaN there, so any
statement about this value is faithful to the program only under the
hypothesis that the radicand Rs squared minus shoeArea over pi is
non-negative; with the default coefficients the radicand is negative for
every swash angle above roughly 54.57 degrees. -/
noncomputable def rad_int_shoe (V β : ℝ) (n : ℕ) (k1 k2 k3 k4 k5 : ℝ) : ℝ :=
  Real.sqrt ((rad_ext_shoe V β n k1 k2 k3 k4 k5) ^ 2 -
    area_shoe V β n k1 k2 k3 k4 k5 / π)

/-- Embedding of HST.compute_sizes (src/hst.py lines 130 to 171): assembles
the sizes dictionary. Defaults in the source are k1 = 0.75, k2 = 0.91,
k3 = 0.48, k4 = 0.93, k5 = 0.95. -/
noncomputable def compute_sizes (V β : ℝ) (n : ℕ) (k1 k2 k3 k4 k5 : ℝ) : Sizes :=
  { d := dia_piston V β n k1 k2 k3 k4 k5
    Ap := area_piston V β n k1 k2 k3 k4 k5
    D := pcd V β n k1 k2 k3 k4 k5
    h := stroke V β n k1 k2 k3 k4 k5
    eng := min_engagement V β n k1 k2 k3 k4 k5
    rbo := rad_ext_int V β n k1 k2 k3 k4 k5
    Rbo := rad_ext_ext V β n k1 k2 k3 k4 k5
    Rbi := rad_int_ext V β n k1 k2 k3 k4 k5
    rbi := rad_int_int V β n k1 k2 k3 k4 k5
    rs := rad_int_shoe V β n k1 k2 k3 k4 k5
    Rs := rad_ext_shoe V β n k1 k2 k3 k4 k5 }

/-- The sizing stage with the error channel the specification assigns to it.
The source body of compute_sizes contains no validation and no raise
statement, so the embedding unconditionally returns ok. -/
noncomputable def compute_sizes_result (V β : ℝ) (n : ℕ)
    (k1 k2 k3 k4 k5 : ℝ) : Except HSTError Sizes :=
  Except.ok (compute_sizes V β n k1 k2 k3 k4 k5)

/-- Inputs consumed by the body of HST.compute_eff (src/hst.py lines 181 to
328): the attributes of the object it reads (sizes, the dynamic viscosity
looked up from the oil table, oil_bulk, displ, swash, pistons) together with
the method arguments. -/
structure EffInputs where
  szs : Sizes
  viscDyn : ℝ
  oilBulk : ℝ
  displ : ℝ
  swash : ℝ
  pistons : ℕ
  speedPump : ℝ
  pd : ℝ
  pc : ℝ
  A : ℝ
  Bp : ℝ
  Bm : ℝ
  Cp : ℝ
  Cm : ℝ
  D : ℝ
  h1 : ℝ
  h2 : ℝ
  h3 : ℝ
  ecc : ℝ

/-- Builds the compute_eff inputs from an HST state: compute_eff reads the
dynamic viscosity via the lookup oil_data.loc[oil_temp] and the bulk
modulus via the attribute oil_bulk (src/hst.py lines 225 and 246). -/
noncomputable def eff_inputs (st : HSTState) (szs : Sizes)
    (speed pd pc A Bp Bm Cp Cm D h1 h2 h3 ecc : ℝ) : EffInputs :=
  { szs := szs, viscDyn := (st.oil_data st.oil_temp).viscDyn,
    oilBulk := st.oil_bulk, displ := st.displ, swash := st.swash,
    pistons := st.pistons, speedPump := speed, pd := pd, pc := pc,
    A := A, Bp := Bp, Bm := Bm, Cp := Cp, Cm := Cm, D := D,
    h1 := h1, h2 := h2, h3 := h3, ecc := ecc }

/-- Cylinder block leakage, src/hst.py lines 220 to 225. -/
noncomputable def leak_block (x : EffInputs) : ℝ :=
  π * x.h1 ^ 3 * (x.pd * (⌈(x.pistons : ℝ) / 2⌉ : ℝ) +
      x.pc * (⌊(x.pistons : ℝ) / 2⌋ : ℝ)) * 1e5 / (x.pistons : ℝ) *
    (1 / Real.log (x.szs.Rbo / x.szs.rbo) +
     1 / Real.log (x.szs.Rbi / x.szs.rbi)) /
    (6 * x.viscDyn * 1e-3)

/-- Shoe leakage, src/hst.py lines 226 to 230. -/
noncomputable def leak_shoes (x : EffInputs) : ℝ :=
  (x.pistons : ℝ) * π * x.h2 ^ 3 * (x.pd * (⌈(x.pistons : ℝ) / 2⌉ : ℝ) +
      x.pc * (⌊(x.pistons : ℝ) / 2⌋ : ℝ)) * 1e5 / (x.pistons : ℝ) /
    (6 * x.viscDyn * 1e-3 * Real.log (x.szs.Rs / x.szs.rs))

/-- Piston leakage summed over the piston index, src/hst.py lines 231 to
241 (the array of per-piston terms followed by its sum). -/
noncomputable def leak_pistons (x : EffInputs) : ℝ :=
  ∑ ii ∈ Finset.range x.pistons,
    π * x.szs.d * x.h3 ^ 3 * (x.pd * (⌈(x.pistons : ℝ) / 2⌉ : ℝ) +
        x.pc * (⌊(x.pistons : ℝ) / 2⌋ : ℝ)) * 1e5 / (x.pistons : ℝ) *
      (1 + 1.5 * x.ecc ^ 3) *
      (1 / (x.szs.eng + x.szs.h * Real.sin (π * (ii : ℝ) / (x.pistons : ℝ)))) /
      (12 * x.viscDyn * 1e-3)

/-- Total leakage, src/hst.py line 242. -/
noncomputable def leak_total (x : EffInputs) : ℝ :=
  leak_block x + leak_shoes x + leak_pistons x

/-- Theoretical pump flow rate, src/hst.py line 244. -/
noncomputable def th_flow_rate_pump (x : EffInputs) : ℝ :=
  x.speedPump * x.displ / 6e7

/-- Pump volumetric efficiency, src/hst.py lines 245 to 247. Note the
compressibility term divides by the attribute oil_bulk, which init sets to
the literal 15000, not by a value from the oil table. -/
noncomputable def vol_pump (x : EffInputs) : ℝ :=
  (1 - (x.pd - x.pc) / x.oilBulk - leak_total x / th_flow_rate_pump x) * 100

/-- Motor volumetric efficiency, src/hst.py line 248. -/
noncomputable def vol_motor (x : EffInputs) : ℝ :=
  (1 - leak_total x / th_flow_rate_pump x) * 100

/-- HST volumetric efficiency, src/hst.py line 249. -/
noncomputable def vol_hst (x : EffInputs) : ℝ :=
  vol_pump x * vol_motor x * 1e-2

/-- Pump mechanical efficiency, src/hst.py lines 250 to 262. -/
noncomputable def mech_pump (x : EffInputs) : ℝ :=
  (1 - x.A * Real.exp (-(x.Bp * x.viscDyn * x.speedPump /
        (x.swash * (x.pd * 1e5 - x.pc * 1e5) * 1e-5))) -
    x.Cp * Real.sqrt (x.viscDyn * x.speedPump /
        (x.swash * (x.pd * 1e5 - x.pc * 1e5) * 1e-5)) -
    x.D / (x.swash * (x.pd * 1e5 - x.pc * 1e5) * 1e-5)) * 100

/-- Motor mechanical efficiency, src/hst.py lines 263 to 275. -/
noncomputable def mech_motor (x : EffInputs) : ℝ :=
  (1 - x.A * Real.exp (-(x.Bm * x.viscDyn * x.speedPump * vol_hst x * 1e-2 /
        (x.swash * (x.pd * 1e5 - x.pc * 1e5) * 1e-5))) -
    x.Cm * Real.sqrt (x.viscDyn * x.speedPump * vol_hst x * 1e-2 /
        (x.swash * (x.pd * 1e5 - x.pc * 1e5) * 1e-5)) -
    x.D / (x.swash * (x.pd * 1e5 - x.pc * 1e5) * 1e-5)) * 100

/-- HST mechanical efficiency, src/hst.py line 276. -/
noncomputable def mech_hst (x : EffInputs) : ℝ :=
  mech_pump x * mech_motor x * 1e-2

/-- Pump total efficiency, src/hst.py line 277. -/
noncomputable def total_pump (x : EffInputs) : ℝ :=
  vol_pump x * mech_pump x * 1e-2

/-- Motor total efficiency, src/hst.py line 278. -/
noncomputable def total_motor (x : EffInputs) : ℝ :=
  vol_motor x * mech_motor x * 1e-2

/-- HST total efficiency, src/hst.py line 279. -/
noncomputable def total_hst (x : EffInputs) : ℝ :=
  total_pump x * total_motor x * 1e-2

/-- Pump torque, src/hst.py lines 280 to 281. -/
noncomputable def torque_pump (x : EffInputs) : ℝ :=
  (x.pd * 1e5 - x.pc * 1e5) * x.displ * 1e-6 / (2 * π * mech_pump x * 1e-2)

/-- Motor torque, src/hst.py lines 282 to 283. -/
noncomputable def torque_motor (x : EffInputs) : ℝ :=
  (x.pd * 1e5 - x.pc * 1e5) * x.displ * 1e-6 / (2 * π * mech_pump x * 1e-2) *
    (mech_hst x * 1e-2)

/-- Pump power, src/hst.py line 284. -/
noncomputable def power_pump (x : EffInputs) : ℝ :=
  torque_pump x * x.speedPump * π / 30 * 1e-3

/-- Motor power, src/hst.py line 285. -/
noncomputable def power_motor (x : EffInputs) : ℝ :=
  power_pump x * total_hst x * 1e-2

/-- Motor speed, src/hst.py line 286. -/
noncomputable def speed_motor (x : EffInputs) : ℝ :=
  x.speedPump * vol_hst x * 1e-2

/-- The values stored by compute_eff into the performance and efficiencies
dictionaries (src/hst.py lines 287 to 328). -/
structure EffOutputs where
  speedPump : ℝ
  torquePump : ℝ
  powerPump : ℝ
  speedMotor : ℝ
  torqueMotor : ℝ
  powerMotor : ℝ
  leakBlock : ℝ
  leakShoes : ℝ
  leakPistons : ℝ
  leakTotal : ℝ
  volPump : ℝ
  mechPump : ℝ
  totalPump : ℝ
  volMotor : ℝ
  mechMotor : ℝ
  totalMotor : ℝ
  volHst : ℝ
  mechHst : ℝ
  totalHst : ℝ

/-- Collects every value compute_eff computes and stores. -/
noncomputable def eff_outputs (x : EffInputs) : EffOutputs :=
  { speedPump := x.speedPump, torquePump := torque_pump x,
    powerPump := power_pump x, speedMotor := speed_motor x,
    torqueMotor := torque_motor x, powerMotor := power_motor x,
    leakBlock := leak_block x, leakShoes := leak_shoes x,
    leakPistons := leak_pistons x, leakTotal := leak_total x,
    volPump := vol_pump x, mechPump := mech_pump x,
    totalPump := total_pump x, volMotor := vol_motor x,
    mechMotor := mech_motor x, totalMotor := total_motor x,
    volHst := vol_hst x, mechHst := mech_hst x, totalHst := total_hst x }

/-- The evaluation stage with the error channel the specification assigns
to it. The source body of compute_eff (src/hst.py lines 181 to 328)
contains no precondition check and no raise statement, so the embedding
unconditionally returns ok. -/
noncomputable def compute_eff (x : EffInputs) : Except HSTError EffOutputs :=
  Except.ok (eff_outputs x)

/-- Control actuator flow, src/hst.py lines 356 to 360. The method reads
no attribute of the object and no argument; the parameter mirrors self. -/
noncomputable def compute_control_flow (x : EffInputs) : ℝ :=
  π * (72.08e-3) ^ 2 / 4 * 144.26e-3 / 2 / 0.8

/-- Block leakage as written in the specification (section 4.2): pi times
h1 cubed times (Pd ceil(n/2) + Pc floor(n/2)) times 1e5 over n, times the
sum of the reciprocal log ratios, over (6 mu 1e-3). -/
noncomputable def leak_block_spec (x : EffInputs) : ℝ :=
  π * x.h1 ^ 3 * (x.pd * (⌈(x.pistons : ℝ) / 2⌉ : ℝ) +
      x.pc * (⌊(x.pistons : ℝ) / 2⌋ : ℝ)) * 1e5 / (x.pistons : ℝ) *
    (1 / Real.log (x.szs.Rbo / x.szs.rbo) +
     1 / Real.log (x.szs.Rbi / x.szs.rbi)) / (6 * x.viscDyn * 1e-3)

/-- Shoe leakage as written in the specification (section 4.2). -/
noncomputable def leak_shoes_spec (x : EffInputs) : ℝ :=
  (x.pistons : ℝ) * π * x.h2 ^ 3 * (x.pd * (⌈(x.pistons : ℝ) / 2⌉ : ℝ) +
      x.pc * (⌊(x.pistons : ℝ) / 2⌋ : ℝ)) * 1e5 / (x.pistons : ℝ) /
    (6 * x.viscDyn * 1e-3 * Real.log (x.szs.Rs / x.szs.rs))

/-- Piston leakage as written in the specification (section 4.2): summed
over i = 0 to n - 1, dividing by (minEngagement + stroke sin(pi i / n))
and by (12 mu 1e-3). -/
noncomputable def leak_pistons_spec (x : EffInputs) : ℝ :=
  ∑ i ∈ Finset.range x.pistons,
    π * x.szs.d * x.h3 ^ 3 * (x.pd * (⌈(x.pistons : ℝ) / 2⌉ : ℝ) +
        x.pc * (⌊(x.pistons : ℝ) / 2⌋ : ℝ)) * 1e5 / (x.pistons : ℝ) *
      (1 + 1.5 * x.ecc ^ 3) /
      (x.szs.eng + x.szs.h * Real.sin (π * (i : ℝ) / (x.pistons : ℝ))) /
      (12 * x.viscDyn * 1e-3)

/-- The pressure-independent factor of the leakage model: leak_total is the
product of (pd ceil(n/2) + pc floor(n/2)) with this coefficient, which
depends only on geometry, viscosity, clearances and eccentricity. -/
noncomputable def leak_coeff (x : EffInputs) : ℝ :=
  π * x.h1 ^ 3 * 1e5 / (x.pistons : ℝ) *
      (1 / Real.log (x.szs.Rbo / x.szs.rbo) +
       1 / Real.log (x.szs.Rbi / x.szs.rbi)) / (6 * x.viscDyn * 1e-3) +
    (x.pistons : ℝ) * π * x.h2 ^ 3 * 1e5 / (x.pistons : ℝ) /
      (6 * x.viscDyn * 1e-3 * Real.log (x.szs.Rs / x.szs.rs)) +
    ∑ ii ∈ Finset.range x.pistons,
      π * x.szs.d * x.h3 ^ 3 * 1e5 / (x.pistons : ℝ) *
        (1 + 1.5 * x.ecc ^ 3) *
        (1 / (x.szs.eng + x.szs.h * Real.sin (π * (ii : ℝ) / (x.pistons : ℝ)))) /
        (12 * x.viscDyn * 1e-3)

/-- A concrete sizes record used by the fixtures below. -/
noncomputable def szs0 : Sizes :=
  { d := 1, Ap := 1, D := 1, h := 1, eng := 1.4, rbo := 1, Rbo := 2,
    Rbi := 2, rbi := 1, rs := 1, Rs := 2 }

/-- Operating fixture with non-positive pump speed and discharge pressure
well above charge pressure: the point the specification says must be
rejected as an invalid operating point. -/
noncomputable def x0 : EffInputs :=
  { szs := szs0, viscDyn := 1, oilBulk := 15000, displ := 440, swash := 18,
    pistons := 9, speedPump := 0, pd := 472, pc := 25, A := 0.17, Bp := 1,
    Bm := 0.5, Cp := 0.001, Cm := 0.005, D := 125, h1 := 20e-6, h2 := 20e-6,
    h3 := 20e-6, ecc := 1 }

/-- A degenerate sizes record: every band and shoe radius pair is equal, so
all three log ratio terms are log 1 = 0. -/
noncomputable def szs1 : Sizes :=
  { d := 1, Ap := 1, D := 1, h := 1, eng := 1.4, rbo := 1, Rbo := 1,
    Rbi := 1, rbi := 1, rs := 1, Rs := 1 }

/-- Fixture with the degenerate geometry szs1 at an ordinary operating
point. -/
noncomputable def x1 : EffInputs :=
  { szs := szs1, viscDyn := 1, oilBulk := 15000, displ := 440, swash := 18,
    pistons := 9, speedPump := 2025, pd := 472, pc := 25, A := 0.17, Bp := 1,
    Bm := 0.5, Cp := 0.001, Cm := 0.005, D := 125, h1 := 20e-6, h2 := 20e-6,
    h3 := 20e-6, ecc := 1 }

/-- A well-behaved sizes record whose radius ratios are all e, so every log
ratio term is exactly 1, and whose stroke is 0, so every per-piston film
length is the minimum engagement. -/
noncomputable def szsE : Sizes :=
  { d := 1, Ap := 1, D := 1, h := 0, eng := 1, rbo := 1, Rbo := Real.exp 1,
    Rbi := Real.exp 1, rbi := 1, rs := 1, Rs := Real.exp 1 }

/-- Fixture with the geometry szsE and two pistons, used to compare leakage
at operating points with different pressure differentials. -/
noncomputable def x2 : EffInputs :=
  { szs := szsE, viscDyn := 1, oilBulk := 15000, displ := 440, swash := 18,
    pistons := 2, speedPump := 2025, pd := 472, pc := 25, A := 0.17, Bp := 1,
    Bm := 0.5, Cp := 0.001, Cm := 0.005, D := 125, h1 := 1, h2 := 1,
    h3 := 1, ecc := 1 }

/-- Oil table whose row has bulk modulus 10000 bar at every temperature. -/
noncomputable def tblA : ℝ → OilRow :=
  fun _ => { viscDyn := 23.5, viscKin := 20, density := 850, bulk := 10000 }

/-- Oil table identical to tblA except that the bulk modulus is 20000. -/
noncomputable def tblB : ℝ → OilRow :=
  fun _ => { viscDyn := 23.5, viscKin := 20, density := 850, bulk := 20000 }

/-- HST state built on the oil table tblA. -/
noncomputable def stA : HSTState := hst_init 440 18 9 100 tblA

/-- HST state built on the oil table tblB. -/
noncomputable def stB : HSTState := hst_init 440 18 9 100 tblB

/-- C1 (amended): compute_eff performs no operating-point validation. For
every input, including those with discharge pressure at or below charge
pressure or with non-positive pump speed, it returns the computed values
and raises no InvalidOperatingPoint error: the source contains no such
check (src/hst.py lines 181 to 328). -/
theorem c1_no_operating_point_validation (x : EffInputs)
    (h : x.pd ≤ x.pc ∨ x.speedPump ≤ 0) :
    compute_eff x = Except.ok (eff_outputs x) := rfl

/-- Witness for c1_no_operating_point_validation at the fixture x0, whose
pump speed is 0 (non-positive). -/
theorem c1_witness :
    (x0.pd ≤ x0.pc ∨ x0.speedPump ≤ 0) ∧
      compute_eff x0 = Except.ok (eff_outputs x0) :=
  ⟨Or.inr (by norm_num [x0]),
   c1_no_operating_point_validation x0 (Or.inr (by norm_num [x0]))⟩

/-- C1 counterexample: at the concrete operating point x0 (pump speed 0,
discharge 472 bar, charge 25 bar) the evaluation does not produce the
InvalidOperatingPoint error the claim requires. -/
theorem c1_counterexample :
    (x0.pd ≤ x0.pc ∨ x0.speedPump ≤ 0) ∧
      compute_eff x0 ≠ Except.error HSTError.invalidOperatingPoint :=
  ⟨Or.inr (by norm_num [x0]), by simp [compute_eff]⟩

/-- C2 (amended): the leakage stage performs no degenerate-geometry check.
For every input whose band or shoe log ratio term is zero, compute_eff
still returns its computed values and raises no DegenerateGeometryError:
the source contains no such check (src/hst.py lines 220 to 242; there the
zero log term flows into an IEEE division by zero producing an infinite
leakage, which has no counterpart in this real-valued embedding). -/
theorem c2_no_degenerate_geometry_validation (x : EffInputs)
    (h : Real.log (x.szs.Rbo / x.szs.rbo) = 0 ∨
         Real.log (x.szs.Rbi / x.szs.rbi) = 0 ∨
         Real.log (x.szs.Rs / x.szs.rs) = 0) :
    compute_eff x = Except.ok (eff_outputs x) := rfl

/-- Witness for c2_no_degenerate_geometry_validation at the fixture x1,
whose geometry has Rbo equal to rbo. -/
theorem c2_witness :
    (Real.log (x1.szs.Rbo / x1.szs.rbo) = 0 ∨
     Real.log (x1.szs.Rbi / x1.szs.rbi) = 0 ∨
     Real.log (x1.szs.Rs / x1.szs.rs) = 0) ∧
      compute_eff x1 = Except.ok (eff_outputs x1) :=
  ⟨Or.inl (by norm_num [x1, szs1]),
   c2_no_degenerate_geometry_validation x1 (Or.inl (by norm_num [x1, szs1]))⟩

/-- C2 counterexample: at the concrete fixture x1, whose geometry has
Rbo = rbo (so log(Rbo / rbo) = 0), the leakage computation does not
produce the DegenerateGeometryError the claim requires. -/
theorem c2_counterexample :
    Real.log (x1.szs.Rbo / x1.szs.rbo) = 0 ∧
      compute_eff x1 ≠ Except.error HSTError.degenerateGeometry :=
  ⟨by norm_num [x1, szs1], by simp [compute_eff]⟩

/-- C3 (amended): in vol_pump the compressibility term divides by the
fixed bulk modulus 15000 bar that init assigns to oil_bulk (src/hst.py
line 41), for every configuration, oil table, geometry and operating
point; the bulk modulus of the looked-up oil row is never read. -/
theorem c3_bulk_modulus_fixed (displ swash : ℝ) (pistons : ℕ)
    (oil_temp : ℝ) (tbl : ℝ → OilRow) (szs : Sizes)
    (speed pd pc A Bp Bm Cp Cm D h1 h2 h3 ecc : ℝ) :
    vol_pump (eff_inputs (hst_init displ swash pistons oil_temp tbl) szs
        speed pd pc A Bp Bm Cp Cm D h1 h2 h3 ecc) =
      (1 - (pd - pc) / 15000 -
        leak_total (eff_inputs (hst_init displ swash pistons oil_temp tbl)
          szs speed pd pc A Bp Bm Cp Cm D h1 h2 h3 ecc) /
        th_flow_rate_pump (eff_inputs (hst_init displ swash pistons oil_temp
          tbl) szs speed pd pc A Bp Bm Cp Cm D h1 h2 h3 ecc)) * 100 := rfl

/-- C3 counterexample: the states stA and stB are identical except that the
looked-up bulk modulus differs (10000 versus 20000 bar), yet vol_pump is
the same at the same geometry and operating point, so vol_pump does not
vary with the looked-up bulk modulus. -/
theorem c3_counterexample :
    (stA.oil_data stA.oil_temp).bulk ≠ (stB.oil_data stB.oil_temp).bulk ∧
      vol_pump (eff_inputs stA szs0 2025 472 25 0.17 1 0.5 0.001 0.005 125
          20e-6 20e-6 20e-6 1) =
        vol_pump (eff_inputs stB szs0 2025 472 25 0.17 1 0.5 0.001 0.005 125
          20e-6 20e-6 20e-6 1) := by
  constructor
  · norm_num [stA, stB, hst_init, tblA, tblB]
  · rfl

/-- C4 (amended): neither init nor compute_sizes validates the swash angle
or the piston count; for every input, including swash angle at or outside
(0, 90) degrees or piston count below 3, the geometry sizes are produced
and no InvalidConfiguration error is raised (src/hst.py lines 27 to 45 and
130 to 171 contain no check or raise statement). -/
theorem c4_no_configuration_validation (V β : ℝ) (n : ℕ)
    (k1 k2 k3 k4 k5 : ℝ) (h : β ≤ 0 ∨ 90 ≤ β ∨ n < 3) :
    compute_sizes_result V β n k1 k2 k3 k4 k5 =
      Except.ok (compute_sizes V β n k1 k2 k3 k4 k5) := rfl

/-- Witness for c4_no_configuration_validation at displacement 440, swash
18 degrees and piston count 2 (below 3). -/
theorem c4_witness :
    ((18 : ℝ) ≤ 0 ∨ (90 : ℝ) ≤ 18 ∨ (2 : ℕ) < 3) ∧
      compute_sizes_result 440 18 2 0.75 0.91 0.48 0.93 0.95 =
        Except.ok (compute_sizes 440 18 2 0.75 0.91 0.48 0.93 0.95) :=
  ⟨Or.inr (Or.inr (by norm_num)),
   c4_no_configuration_validation 440 18 2 0.75 0.91 0.48 0.93 0.95
     (Or.inr (Or.inr (by norm_num)))⟩

/-- C4 counterexample: with the concrete piston count 2 (below 3) and
otherwise ordinary inputs, the sizing computation does not produce the
InvalidConfiguration error the claim requires. -/
theorem c4_counterexample :
    (2 : ℕ) < 3 ∧
      compute_sizes_result 440 18 2 0.75 0.91 0.48 0.93 0.95 ≠
        Except.error HSTError.invalidConfiguration :=
  ⟨by norm_num, by simp [compute_sizes_result]⟩

/-- C5: for every evaluation the combined-unit efficiencies satisfy exactly
volHST = volPump volMotor / 100, mechHST = mechPump mechMotor / 100 and
totalHST = totalPump totalMotor / 100, with totalPump = volPump mechPump
/ 100 and totalMotor = volMotor mechMotor / 100 (src/hst.py lines 249 and
276 to 279). -/
theorem c5_efficiency_identities (x : EffInputs) :
    vol_hst x = vol_pump x * vol_motor x / 100 ∧
    mech_hst x = mech_pump x * mech_motor x / 100 ∧
    total_hst x = total_pump x * total_motor x / 100 ∧
    total_pump x = vol_pump x * mech_pump x / 100 ∧
    total_motor x = vol_motor x * mech_motor x / 100 := by
  have h100 : (1e-2 : ℝ) = 1 / 100 := by norm_num
  refine ⟨?_, ?_, ?_, ?_, ?_⟩ <;>
    simp only [vol_hst, mech_hst, total_hst, total_pump, total_motor, h100] <;>
    ring

/-- C6: the leakage computation returns exactly the block, shoe and piston
leakage formulas stated in the specification, and the total is their sum
(src/hst.py lines 220 to 242 against specification section 4.2). -/
theorem c6_leakage_formulas (x : EffInputs) :
    leak_block x = leak_block_spec x ∧
    leak_shoes x = leak_shoes_spec x ∧
    leak_pistons x = leak_pistons_spec x ∧
    leak_total x =
      leak_block_spec x + leak_shoes_spec x + leak_pistons_spec x := by
  have hp : leak_pistons x = leak_pistons_spec x := by
    unfold leak_pistons leak_pistons_spec
    exact Finset.sum_congr rfl fun i _ => by ring
  exact ⟨rfl, rfl, hp, by unfold leak_total; rw [hp]; rfl⟩

/-- C9: the control-actuator flow equals the fixed value
pi times 0.07208 squared over 4 times 0.14426 over 2 over 0.8, and is the
same for every input of the model (src/hst.py lines 356 to 360). -/
theorem c9_control_flow_invariant (x y : EffInputs) :
    compute_control_flow x = π * 0.07208 ^ 2 / 4 * 0.14426 / 2 / 0.8 ∧
    compute_control_flow x = compute_control_flow y := by
  constructor
  · unfold compute_control_flow
    norm_num
  · rfl

/-- C10: for every geometry with positive piston diameter, minimum
engagement equal to 1.4 times the diameter and non-negative stroke, and
every piston index below the piston count, the per-piston film length
eng + h sin(pi i / n) in the leakage denominator is strictly positive
(src/hst.py lines 231 to 241 and 144 to 145). -/
theorem c10_piston_denominator_pos (x : EffInputs) (i : ℕ)
    (hd : 0 < x.szs.d) (heng : x.szs.eng = 1.4 * x.szs.d)
    (hh : 0 ≤ x.szs.h) (hi : i < x.pistons) :
    0 < x.szs.eng + x.szs.h * Real.sin (π * (i : ℝ) / (x.pistons : ℝ)) := by
  have hnp : 0 < x.pistons := lt_of_le_of_lt (Nat.zero_le i) hi
  have hn : (0 : ℝ) < (x.pistons : ℝ) := by exact_mod_cast hnp
  have hiR : (i : ℝ) ≤ (x.pistons : ℝ) := by exact_mod_cast hi.le
  have hsin : 0 ≤ Real.sin (π * (i : ℝ) / (x.pistons : ℝ)) := by
    apply Real.sin_nonneg_of_nonneg_of_le_pi
    · positivity
    · rw [div_le_iff₀ hn]
      calc π * (i : ℝ) ≤ π * (x.pistons : ℝ) :=
            mul_le_mul_of_nonneg_left hiR Real.pi_pos.le
        _ = π * (x.pistons : ℝ) := rfl
  nlinarith [mul_nonneg hh hsin]

/-- Witness for c10_piston_denominator_pos at the fixture x0 with piston
index 4 of 9. -/
theorem c10_witness :
    (0 < x0.szs.d ∧ x0.szs.eng = 1.4 * x0.szs.d ∧ 0 ≤ x0.szs.h ∧
      4 < x0.pistons) ∧
      0 < x0.szs.eng + x0.szs.h * Real.sin (π * ((4 : ℕ) : ℝ) / (x0.pistons : ℝ)) :=
  ⟨⟨by norm_num [x0, szs0], by norm_num [x0, szs0], by norm_num [x0, szs0],
    by norm_num [x0]⟩,
   c10_piston_denominator_pos x0 4 (by norm_num [x0, szs0])
     (by norm_num [x0, szs0]) (by norm_num [x0, szs0]) (by norm_num [x0])⟩

/-- Total leakage factors as the pressure combination
pd ceil(n/2) + pc floor(n/2) times a coefficient independent of the
pressures. -/
theorem leak_total_factor (x : EffInputs) :
    leak_total x =
      (x.pd * (⌈(x.pistons : ℝ) / 2⌉ : ℝ) +
        x.pc * (⌊(x.pistons : ℝ) / 2⌋ : ℝ)) * leak_coeff x := by
  have hp : leak_pistons x =
      (x.pd * (⌈(x.pistons : ℝ) / 2⌉ : ℝ) +
        x.pc * (⌊(x.pistons : ℝ) / 2⌋ : ℝ)) *
        ∑ ii ∈ Finset.range x.pistons,
          π * x.szs.d * x.h3 ^ 3 * 1e5 / (x.pistons : ℝ) *
            (1 + 1.5 * x.ecc ^ 3) *
            (1 / (x.szs.eng +
              x.szs.h * Real.sin (π * (ii : ℝ) / (x.pistons : ℝ)))) /
            (12 * x.viscDyn * 1e-3) := by
    unfold leak_pistons
    rw [Finset.mul_sum]
    exact Finset.sum_congr rfl fun i _ => by ring
  unfold leak_total leak_coeff
  rw [hp]
  unfold leak_block leak_shoes
  ring

/-- The leakage coefficient is non-negative whenever the viscosity is
positive, the clearances, eccentricity, diameter, engagement and stroke are
non-negative, and the three log ratio terms are positive. -/
theorem leak_coeff_nonneg (x : EffInputs) (hmu : 0 < x.viscDyn)
    (hh1 : 0 ≤ x.h1) (hh2 : 0 ≤ x.h2) (hh3 : 0 ≤ x.h3) (hecc : 0 ≤ x.ecc)
    (hdpos : 0 ≤ x.szs.d) (heng : 0 ≤ x.szs.eng) (hstr : 0 ≤ x.szs.h)
    (hbo : 0 < Real.log (x.szs.Rbo / x.szs.rbo))
    (hbi : 0 < Real.log (x.szs.Rbi / x.szs.rbi))
    (hsr : 0 < Real.log (x.szs.Rs / x.szs.rs)) :
    0 ≤ leak_coeff x := by
  unfold leak_coeff
  have hn : (0 : ℝ) ≤ (x.pistons : ℝ) := Nat.cast_nonneg _
  refine add_nonneg (add_nonneg ?_ ?_) ?_
  · exact div_nonneg (mul_nonneg (div_nonneg (mul_nonneg (mul_nonneg
      Real.pi_pos.le (pow_nonneg hh1 3)) (by norm_num)) hn)
      (add_nonneg (one_div_nonneg.mpr hbo.le) (one_div_nonneg.mpr hbi.le)))
      (mul_nonneg (mul_nonneg (by norm_num) hmu.le) (by norm_num))
  · exact div_nonneg (div_nonneg (mul_nonneg (mul_nonneg (mul_nonneg hn
      Real.pi_pos.le) (pow_nonneg hh2 3)) (by norm_num)) hn)
      (mul_nonneg (mul_nonneg (mul_nonneg (by norm_num) hmu.le)
        (by norm_num)) hsr.le)
  · apply Finset.sum_nonneg
    intro i hi
    have hin : i < x.pistons := Finset.mem_range.mp hi
    have hnp : (0 : ℝ) < (x.pistons : ℝ) := by
      exact_mod_cast lt_of_le_of_lt (Nat.zero_le i) hin
    have hiR : (i : ℝ) ≤ (x.pistons : ℝ) := by exact_mod_cast hin.le
    have hsin : 0 ≤ Real.sin (π * (i : ℝ) / (x.pistons : ℝ)) := by
      apply Real.sin_nonneg_of_nonneg_of_le_pi
      · positivity
      · rw [div_le_iff₀ hnp]
        exact mul_le_mul_of_nonneg_left hiR Real.pi_pos.le
    have hden : 0 ≤ x.szs.eng +
        x.szs.h * Real.sin (π * (i : ℝ) / (x.pistons : ℝ)) :=
      add_nonneg heng (mul_nonneg hstr hsin)
    have hecc3 : (0 : ℝ) ≤ 1 + 1.5 * x.ecc ^ 3 := by
      nlinarith [pow_nonneg hecc 3]
    exact div_nonneg (mul_nonneg (mul_nonneg (div_nonneg (mul_nonneg
      (mul_nonneg (mul_nonneg Real.pi_pos.le hdpos) (pow_nonneg hh3 3))
      (by norm_num)) hn) hecc3) (one_div_nonneg.mpr hden))
      (mul_nonneg (mul_nonneg (by norm_num) hmu.le) (by norm_num))

/-- C7 (amended): holding the geometry, oil properties, clearances,
eccentricity and also the charge pressure fixed, the total leakage is
non-decreasing in the discharge pressure, hence in the pressure
differential Pd - Pc at fixed Pc (src/hst.py lines 220 to 242). -/
theorem c7_leak_total_monotone (x : EffInputs) (pd1 pd2 : ℝ)
    (hmu : 0 < x.viscDyn) (hh1 : 0 ≤ x.h1) (hh2 : 0 ≤ x.h2) (hh3 : 0 ≤ x.h3)
    (hecc : 0 ≤ x.ecc) (hdpos : 0 ≤ x.szs.d) (heng : 0 ≤ x.szs.eng)
    (hstr : 0 ≤ x.szs.h)
    (hbo : 0 < Real.log (x.szs.Rbo / x.szs.rbo))
    (hbi : 0 < Real.log (x.szs.Rbi / x.szs.rbi))
    (hsr : 0 < Real.log (x.szs.Rs / x.szs.rs))
    (hpd : pd1 ≤ pd2) :
    leak_total { x with pd := pd1 } ≤ leak_total { x with pd := pd2 } := by
  rw [leak_total_factor, leak_total_factor]
  have hc1 : leak_coeff { x with pd := pd1 } = leak_coeff x := rfl
  have hc2 : leak_coeff { x with pd := pd2 } = leak_coeff x := rfl
  rw [hc1, hc2]
  have hK : 0 ≤ leak_coeff x :=
    leak_coeff_nonneg x hmu hh1 hh2 hh3 hecc hdpos heng hstr hbo hbi hsr
  have hC : (0 : ℝ) ≤ (⌈(x.pistons : ℝ) / 2⌉ : ℝ) := by
    have h : (0 : ℤ) ≤ ⌈(x.pistons : ℝ) / 2⌉ := Int.ceil_nonneg (by positivity)
    exact_mod_cast h
  have hS : pd1 * (⌈(x.pistons : ℝ) / 2⌉ : ℝ) +
      x.pc * (⌊(x.pistons : ℝ) / 2⌋ : ℝ) ≤
        pd2 * (⌈(x.pistons : ℝ) / 2⌉ : ℝ) +
      x.pc * (⌊(x.pistons : ℝ) / 2⌋ : ℝ) := by
    have h := mul_le_mul_of_nonneg_right hpd hC
    linarith
  exact mul_le_mul_of_nonneg_right hS hK

/-- Witness for c7_leak_total_monotone at the fixture x2 with discharge
pressures 3 and 4 bar. -/
theorem c7_witness :
    (0 < x2.viscDyn ∧ 0 ≤ x2.h1 ∧ 0 ≤ x2.h2 ∧ 0 ≤ x2.h3 ∧ 0 ≤ x2.ecc ∧
      0 ≤ x2.szs.d ∧ 0 ≤ x2.szs.eng ∧ 0 ≤ x2.szs.h ∧
      0 < Real.log (x2.szs.Rbo / x2.szs.rbo) ∧
      0 < Real.log (x2.szs.Rbi / x2.szs.rbi) ∧
      0 < Real.log (x2.szs.Rs / x2.szs.rs) ∧ (3 : ℝ) ≤ 4) ∧
      leak_total { x2 with pd := 3 } ≤ leak_total { x2 with pd := 4 } := by
  have hlog : 0 < Real.log (Real.exp 1 / 1) := by
    rw [div_one, Real.log_exp]
    norm_num
  refine ⟨⟨by norm_num [x2], by norm_num [x2], by norm_num [x2],
    by norm_num [x2], by norm_num [x2], by norm_num [x2, szsE],
    by norm_num [x2, szsE], by norm_num [x2, szsE], hlog, hlog, hlog,
    by norm_num⟩, ?_⟩
  exact c7_leak_total_monotone x2 3 4 (by norm_num [x2]) (by norm_num [x2])
    (by norm_num [x2]) (by norm_num [x2]) (by norm_num [x2])
    (by norm_num [x2, szsE]) (by norm_num [x2, szsE]) (by norm_num [x2, szsE])
    hlog hlog hlog (by norm_num)

/-- C7 counterexample: with the geometry, oil, clearances and eccentricity
of the fixture x2 held fixed, the operating point (Pd, Pc) = (4, 0) has a
strictly larger pressure differential than (3, 2) yet strictly smaller
total leakage, so the total leakage is not a non-decreasing function of
the differential Pd - Pc alone. -/
theorem c7_counterexample :
    ((3 : ℝ) - 2 ≤ (4 : ℝ) - 0) ∧
      leak_total { x2 with pd := 4, pc := 0 } <
        leak_total { x2 with pd := 3, pc := 2 } := by
  refine ⟨by norm_num, ?_⟩
  rw [leak_total_factor, leak_total_factor]
  have hc1 : leak_coeff { x2 with pd := (4 : ℝ), pc := (0 : ℝ) } =
      leak_coeff x2 := rfl
  have hc2 : leak_coeff { x2 with pd := (3 : ℝ), pc := (2 : ℝ) } =
      leak_coeff x2 := rfl
  rw [hc1, hc2]
  have hK : 0 < leak_coeff x2 := by
    unfold leak_coeff
    simp [x2, szsE, Finset.sum_range_succ, Real.log_exp]
    positivity
  have h2c : (⌈((2 : ℕ) : ℝ) / 2⌉ : ℝ) = 1 := by
    have h : ((2 : ℕ) : ℝ) / 2 = 1 := by norm_num
    rw [h, Int.ceil_one, Int.cast_one]
  have h2f : (⌊((2 : ℕ) : ℝ) / 2⌋ : ℝ) = 1 := by
    have h : ((2 : ℕ) : ℝ) / 2 = 1 := by norm_num
    rw [h, Int.floor_one, Int.cast_one]
  show ((4 : ℝ) * (⌈((2 : ℕ) : ℝ) / 2⌉ : ℝ) +
      (0 : ℝ) * (⌊((2 : ℕ) : ℝ) / 2⌋ : ℝ)) * leak_coeff x2 <
    ((3 : ℝ) * (⌈((2 : ℕ) : ℝ) / 2⌉ : ℝ) +
      (2 : ℝ) * (⌊((2 : ℕ) : ℝ) / 2⌋ : ℝ)) * leak_coeff x2
  rw [h2c, h2f]
  nlinarith [hK]

/-- The swash angle in radians has positive tangent for angles strictly
between 0 and 90 degrees. -/
theorem tan_swash_pos {β : ℝ} (hβ0 : 0 < β) (hβ90 : β < 90) :
    0 < Real.tan (β * π / 180) := by
  apply Real.tan_pos_of_pos_of_lt_pi_div_two
  · positivity
  · have h := mul_lt_mul_of_pos_right hβ90 Real.pi_pos
    linarith

/-- The swash angle in radians has positive cosine for angles strictly
between 0 and 90 degrees. -/
theorem cos_swash_pos {β : ℝ} (hβ0 : 0 < β) (hβ90 : β < 90) :
    0 < Real.cos (β * π / 180) := by
  apply Real.cos_pos_of_mem_Ioo
  refine Set.mem_Ioo.mpr ⟨?_, ?_⟩
  · have hp : 0 < β * π / 180 := by positivity
    have hπ := Real.pi_pos
    linarith
  · have h := mul_lt_mul_of_pos_right hβ90 Real.pi_pos
    linarith

/-- The piston diameter is positive for every valid configuration. -/
theorem dia_piston_pos {V β : ℝ} {n : ℕ} (hV : 0 < V) (hβ0 : 0 < β)
    (hβ90 : β < 90) (hn : 3 ≤ n) (k2 k3 k4 k5 : ℝ) :
    0 < dia_piston V β n 0.75 k2 k3 k4 k5 := by
  have ht := tan_swash_pos hβ0 hβ90
  have hnR : (0 : ℝ) < (n : ℝ) := by
    exact_mod_cast lt_of_lt_of_le (by norm_num) hn
  unfold dia_piston
  apply Real.rpow_pos_of_pos
  positivity

/-- The pitch circle diameter is positive for every valid configuration. -/
theorem pcd_pos {V β : ℝ} {n : ℕ} (hV : 0 < V) (hβ0 : 0 < β)
    (hβ90 : β < 90) (hn : 3 ≤ n) (k2 k3 k4 k5 : ℝ) :
    0 < pcd V β n 0.75 k2 k3 k4 k5 := by
  have hd := dia_piston_pos hV hβ0 hβ90 hn k2 k3 k4 k5
  have hnR : (0 : ℝ) < (n : ℝ) := by
    exact_mod_cast lt_of_lt_of_le (by norm_num) hn
  unfold pcd
  positivity

/-- With the default design-balance coefficients, the kidney width reduces
to the closed form 2 (d sqrt(1 + 0.12 pi (pi - 4)) - d) / (pi - 4). -/
theorem kidney_width_eq {V β : ℝ} {n : ℕ}
    (hd : 0 ≤ dia_piston V β n 0.75 0.91 0.48 0.93 0.95) :
    kidney_width V β n 0.75 0.91 0.48 0.93 0.95 =
      2 * (dia_piston V β n 0.75 0.91 0.48 0.93 0.95 *
        Real.sqrt (1 + 0.12 * π * (π - 4)) -
        dia_piston V β n 0.75 0.91 0.48 0.93 0.95) / (π - 4) := by
  unfold kidney_width kidney_area area_piston
  have h : (dia_piston V β n 0.75 0.91 0.48 0.93 0.95) ^ 2 +
      (π - 4) * (0.48 * (π * (dia_piston V β n 0.75 0.91 0.48 0.93 0.95) ^ 2
        / 4)) =
      (dia_piston V β n 0.75 0.91 0.48 0.93 0.95) ^ 2 *
        (1 + 0.12 * π * (π - 4)) := by ring
  rw [h, Real.sqrt_mul (sq_nonneg _), Real.sqrt_sq hd]

/-- Bounds on the constant 1 + 0.12 pi (pi - 4) under the sqrt in the
kidney width closed form. -/
theorem kidney_const_bounds :
    0.6724 < 1 + 0.12 * π * (π - 4) ∧ 1 + 0.12 * π * (π - 4) < 1 := by
  have h1 := Real.pi_gt_d4
  have h2 := Real.pi_lt_d4
  constructor
  · nlinarith [sq_nonneg (π - 3.1415)]
  · have h : 0 < π * (4 - π) := mul_pos (by linarith) (by linarith)
    nlinarith

/-- Bounds on the sqrt of the kidney width constant. -/
theorem kidney_sqrt_bounds :
    0.82 < Real.sqrt (1 + 0.12 * π * (π - 4)) ∧
      Real.sqrt (1 + 0.12 * π * (π - 4)) < 1 := by
  obtain ⟨hc1, hc2⟩ := kidney_const_bounds
  constructor
  · have h : Real.sqrt 0.6724 < Real.sqrt (1 + 0.12 * π * (π - 4)) :=
      Real.sqrt_lt_sqrt (by norm_num) hc1
    have he : Real.sqrt 0.6724 = 0.82 := by
      rw [show (0.6724 : ℝ) = 0.82 ^ 2 by norm_num,
        Real.sqrt_sq (by norm_num)]
    linarith
  · have h : Real.sqrt (1 + 0.12 * π * (π - 4)) < Real.sqrt 1 :=
      Real.sqrt_lt_sqrt (by linarith) hc2
    rwa [Real.sqrt_one] at h

/-- The kidney width is positive for every valid configuration with the
default coefficients. -/
theorem kidney_width_pos {V β : ℝ} {n : ℕ} (hV : 0 < V) (hβ0 : 0 < β)
    (hβ90 : β < 90) (hn : 3 ≤ n) :
    0 < kidney_width V β n 0.75 0.91 0.48 0.93 0.95 := by
  have hd := dia_piston_pos hV hβ0 hβ90 hn 0.91 0.48 0.93 0.95
  rw [kidney_width_eq hd.le]
  obtain ⟨hs1, hs2⟩ := kidney_sqrt_bounds
  have hπ4 : π - 4 < 0 := by have := Real.pi_lt_d4; linarith
  apply div_pos_of_neg_of_neg
  · nlinarith
  · linarith

/-- With the default coefficients, the first term of the land width
reduces to 0.6825 pi d / 4. -/
theorem land_width_eq {V β : ℝ} {n : ℕ}
    (hd : dia_piston V β n 0.75 0.91 0.48 0.93 0.95 ≠ 0)
    (hn : (n : ℝ) ≠ 0) :
    land_width V β n 0.75 0.91 0.48 0.93 0.95 =
      0.6825 * π * dia_piston V β n 0.75 0.91 0.48 0.93 0.95 / 4 -
        kidney_width V β n 0.75 0.91 0.48 0.93 0.95 := by
  unfold land_width area_piston pcd
  have hπ : π ≠ 0 := Real.pi_ne_zero
  have h : 0.91 * (n : ℝ) *
      (π * (dia_piston V β n 0.75 0.91 0.48 0.93 0.95) ^ 2 / 4) /
      (π * ((n : ℝ) * dia_piston V β n 0.75 0.91 0.48 0.93 0.95 /
        (π * 0.75))) =
      0.6825 * π * dia_piston V β n 0.75 0.91 0.48 0.93 0.95 / 4 := by
    field_simp
    ring
  rw [h]

/-- The land width is positive for every valid configuration with the
default coefficients. -/
theorem land_width_pos {V β : ℝ} {n : ℕ} (hV : 0 < V) (hβ0 : 0 < β)
    (hβ90 : β < 90) (hn : 3 ≤ n) :
    0 < land_width V β n 0.75 0.91 0.48 0.93 0.95 := by
  have hd := dia_piston_pos hV hβ0 hβ90 hn 0.91 0.48 0.93 0.95
  have hnR : (0 : ℝ) < (n : ℝ) := by
    exact_mod_cast lt_of_lt_of_le (by norm_num) hn
  rw [land_width_eq hd.ne' hnR.ne', kidney_width_eq hd.le]
  obtain ⟨hs1, hs2⟩ := kidney_sqrt_bounds
  have hπ1 := Real.pi_gt_d4
  have hπ2 := Real.pi_lt_d4
  set d := dia_piston V β n 0.75 0.91 0.48 0.93 0.95 with hdd
  set s := Real.sqrt (1 + 0.12 * π * (π - 4)) with hss
  have hkey : 2 * (d * s - d) / (π - 4) < 0.6825 * π * d / 4 := by
    rw [div_lt_iff_of_neg (by linarith : π - 4 < 0)]
    have h2 : 2.69 < π * (4 - π) := by
      nlinarith [mul_pos (show (0 : ℝ) < π by linarith)
        (show (0 : ℝ) < 3.1416 - π by linarith)]
    have h3 : 2.69 * d < π * (4 - π) * d := by nlinarith
    have h1 : d - d * s < 0.18 * d := by nlinarith
    nlinarith
  linarith

/-- C8 (amended): for every valid configuration (positive displacement,
swash angle strictly between 0 and 90 degrees, at least 3 pistons) with
the default design-balance coefficients, whose shoe radicand
Rs squared minus shoeArea over pi is non-negative (equivalently, swash
angle at most about 54.57 degrees, so that the source's np.sqrt at
src/hst.py line 158 receives a non-negative argument and rs is a real
number rather than NaN), the computed geometry satisfies rbi < Rbi,
rbo < Rbo and rs < Rs, the stroke and piston area are strictly positive,
and the land width Rbo - rbo is strictly positive (src/hst.py lines 139
to 171). -/
theorem c8_geometry_ordering (V β : ℝ) (n : ℕ) (hV : 0 < V) (hβ0 : 0 < β)
    (hβ90 : β < 90) (hn : 3 ≤ n)
    (hshoe : 0 ≤ (rad_ext_shoe V β n 0.75 0.91 0.48 0.93 0.95) ^ 2 -
      area_shoe V β n 0.75 0.91 0.48 0.93 0.95 / π) :
    (compute_sizes V β n 0.75 0.91 0.48 0.93 0.95).rbi <
      (compute_sizes V β n 0.75 0.91 0.48 0.93 0.95).Rbi ∧
    (compute_sizes V β n 0.75 0.91 0.48 0.93 0.95).rbo <
      (compute_sizes V β n 0.75 0.91 0.48 0.93 0.95).Rbo ∧
    (compute_sizes V β n 0.75 0.91 0.48 0.93 0.95).rs <
      (compute_sizes V β n 0.75 0.91 0.48 0.93 0.95).Rs ∧
    0 < (compute_sizes V β n 0.75 0.91 0.48 0.93 0.95).h ∧
    0 < (compute_sizes V β n 0.75 0.91 0.48 0.93 0.95).Ap ∧
    0 < (compute_sizes V β n 0.75 0.91 0.48 0.93 0.95).Rbo -
      (compute_sizes V β n 0.75 0.91 0.48 0.93 0.95).rbo := by
  have hd := dia_piston_pos hV hβ0 hβ90 hn 0.91 0.48 0.93 0.95
  have hpcd := pcd_pos hV hβ0 hβ90 hn 0.91 0.48 0.93 0.95
  have hland := land_width_pos hV hβ0 hβ90 hn
  have hnR : (0 : ℝ) < (n : ℝ) := by
    exact_mod_cast lt_of_lt_of_le (by norm_num) hn
  have hcos := cos_swash_pos hβ0 hβ90
  simp only [compute_sizes]
  refine ⟨?_, ?_, ?_, ?_, ?_, ?_⟩
  · unfold rad_int_int
    linarith
  · unfold rad_ext_ext
    linarith
  · have hRs : 0 < rad_ext_shoe V β n 0.75 0.91 0.48 0.93 0.95 := by
      unfold rad_ext_shoe
      positivity
    have hAs : 0 < area_shoe V β n 0.75 0.91 0.48 0.93 0.95 := by
      unfold area_shoe area_piston
      positivity
    unfold rad_int_shoe
    have h1 : (rad_ext_shoe V β n 0.75 0.91 0.48 0.93 0.95) ^ 2 -
        area_shoe V β n 0.75 0.91 0.48 0.93 0.95 / π <
        (rad_ext_shoe V β n 0.75 0.91 0.48 0.93 0.95) ^ 2 := by
      have h2 : 0 < area_shoe V β n 0.75 0.91 0.48 0.93 0.95 / π :=
        div_pos hAs Real.pi_pos
      linarith
    calc Real.sqrt ((rad_ext_shoe V β n 0.75 0.91 0.48 0.93 0.95) ^ 2 -
          area_shoe V β n 0.75 0.91 0.48 0.93 0.95 / π) <
        Real.sqrt ((rad_ext_shoe V β n 0.75 0.91 0.48 0.93 0.95) ^ 2) :=
          Real.sqrt_lt_sqrt hshoe h1
      _ = rad_ext_shoe V β n 0.75 0.91 0.48 0.93 0.95 :=
          Real.sqrt_sq hRs.le
  · unfold stroke
    exact mul_pos hpcd (tan_swash_pos hβ0 hβ90)
  · unfold area_piston
    positivity
  · unfold rad_ext_ext
    linarith

/-- At the golden fixture configuration (440 cc per rev, swash 18 degrees,
9 pistons, default coefficients) the shoe radicand is non-negative: the
swash angle is well below the degeneration threshold of about 54.57
degrees, since cos(18 pi / 180) is at least 0.9. -/
theorem shoe_radicand_nonneg_at_fixture :
    0 ≤ (rad_ext_shoe 440 18 9 0.75 0.91 0.48 0.93 0.95) ^ 2 -
      area_shoe 440 18 9 0.75 0.91 0.48 0.93 0.95 / π := by
  have hd : 0 < dia_piston 440 18 9 0.75 0.91 0.48 0.93 0.95 :=
    dia_piston_pos (by norm_num) (by norm_num) (by norm_num) (by norm_num)
      0.91 0.48 0.93 0.95
  have hπ1 := Real.pi_gt_d4
  have hπ2 := Real.pi_lt_d4
  have hc_low : (0.9 : ℝ) ≤ Real.cos (18 * π / 180) := by
    have h := Real.one_sub_sq_div_two_le_cos (x := 18 * π / 180)
    have hx : 18 * π / 180 < 0.35 := by linarith
    have hx0 : 0 < 18 * π / 180 := by positivity
    nlinarith
  have hc0 : Real.cos (18 * π / 180) ≠ 0 := by linarith
  have hπ0 : π ≠ 0 := Real.pi_ne_zero
  unfold rad_ext_shoe area_shoe area_piston pcd
  set d := dia_piston 440 18 9 0.75 0.91 0.48 0.93 0.95 with hdd
  set c := Real.cos (18 * π / 180) with hcc
  have h9 : ((9 : ℕ) : ℝ) = 9 := by norm_num
  rw [h9]
  have heq : (π * (9 * d / (π * 0.75)) * 0.95 / (2 * 9)) ^ 2 -
      0.93 * (π * d ^ 2 / 4) / c / π =
      361 / 900 * d ^ 2 - 0.93 * d ^ 2 / (4 * c) := by
    field_simp
    ring
  rw [heq]
  have hd2 : 0 < d ^ 2 := pow_pos hd 2
  have key : 0.93 * d ^ 2 / (4 * c) ≤ 0.26 * d ^ 2 := by
    rw [div_le_iff₀ (by linarith : (0 : ℝ) < 4 * c)]
    nlinarith
  linarith

/-- Witness for c8_geometry_ordering at the configuration of the golden
fixture: displacement 440 cc per rev, swash 18 degrees, 9 pistons, where
the shoe radicand is non-negative. -/
theorem c8_witness :
    ((0 : ℝ) < 440 ∧ (0 : ℝ) < 18 ∧ (18 : ℝ) < 90 ∧ (3 : ℕ) ≤ 9 ∧
      0 ≤ (rad_ext_shoe 440 18 9 0.75 0.91 0.48 0.93 0.95) ^ 2 -
        area_shoe 440 18 9 0.75 0.91 0.48 0.93 0.95 / π) ∧
    ((compute_sizes 440 18 9 0.75 0.91 0.48 0.93 0.95).rbi <
      (compute_sizes 440 18 9 0.75 0.91 0.48 0.93 0.95).Rbi ∧
    (compute_sizes 440 18 9 0.75 0.91 0.48 0.93 0.95).rbo <
      (compute_sizes 440 18 9 0.75 0.91 0.48 0.93 0.95).Rbo ∧
    (compute_sizes 440 18 9 0.75 0.91 0.48 0.93 0.95).rs <
      (compute_sizes 440 18 9 0.75 0.91 0.48 0.93 0.95).Rs ∧
    0 < (compute_sizes 440 18 9 0.75 0.91 0.48 0.93 0.95).h ∧
    0 < (compute_sizes 440 18 9 0.75 0.91 0.48 0.93 0.95).Ap ∧
    0 < (compute_sizes 440 18 9 0.75 0.91 0.48 0.93 0.95).Rbo -
      (compute_sizes 440 18 9 0.75 0.91 0.48 0.93 0.95).rbo) :=
  ⟨⟨by norm_num, by norm_num, by norm_num, by norm_num,
    shoe_radicand_nonneg_at_fixture⟩,
   c8_geometry_ordering 440 18 9 (by norm_num) (by norm_num) (by norm_num)
     (by norm_num) shoe_radicand_nonneg_at_fixture⟩

/-- C8 counterexample: the configuration with displacement 440, swash 60
degrees and 9 pistons is valid in the claim's sense (swash strictly
between 0 and 90, at least 3 pistons), yet with the default coefficients
the shoe radicand Rs squared minus shoeArea over pi is strictly negative
there. The source therefore computes rs as np.sqrt of a negative number,
which is NaN, and the claimed ordering rs < Rs is false for the program at
this input; the real-valued embedding expresses this failure as the sign
of the radicand, since NaN itself has no real counterpart. -/
theorem c8_counterexample :
    ((0 : ℝ) < 440 ∧ (0 : ℝ) < 60 ∧ (60 : ℝ) < 90 ∧ (3 : ℕ) ≤ 9) ∧
    (rad_ext_shoe 440 60 9 0.75 0.91 0.48 0.93 0.95) ^ 2 -
      area_shoe 440 60 9 0.75 0.91 0.48 0.93 0.95 / π < 0 := by
  refine ⟨⟨by norm_num, by norm_num, by norm_num, by norm_num⟩, ?_⟩
  have hd : 0 < dia_piston 440 60 9 0.75 0.91 0.48 0.93 0.95 :=
    dia_piston_pos (by norm_num) (by norm_num) (by norm_num) (by norm_num)
      0.91 0.48 0.93 0.95
  have hcos : Real.cos (60 * π / 180) = 1 / 2 := by
    rw [show (60 : ℝ) * π / 180 = π / 3 by ring]
    exact Real.cos_pi_div_three
  have hπ0 : π ≠ 0 := Real.pi_ne_zero
  unfold rad_ext_shoe area_shoe area_piston pcd
  set d := dia_piston 440 60 9 0.75 0.91 0.48 0.93 0.95 with hdd
  have h9 : ((9 : ℕ) : ℝ) = 9 := by norm_num
  rw [h9, hcos]
  have heq : (π * (9 * d / (π * 0.75)) * 0.95 / (2 * 9)) ^ 2 -
      0.93 * (π * d ^ 2 / 4) / (1 / 2) / π = -(23 / 360) * d ^ 2 := by
    field_simp
    ring
  rw [heq]
  have hd2 : 0 < d ^ 2 := pow_pos hd 2
  linarith

end HSU
